import Mathlib

/-!
Verification of the lock-key derivation and invocation-guard logic of
`django_redis_task_lock` (file `src/django_redis_task_lock/__init__.py`),
as a shallow embedding in Lean.

Python runtime values that can appear as call arguments are modelled by
the `Value` type; Python exceptions by `PyErr`.  The functions
`attr_finder`, `construct_lock_name` and `wrapperRun` mirror
`__attr_finder`, `construct_lock_name` and `__wrapper` from the source.
-/

set_option autoImplicit false

namespace TaskLock

/-- A Python runtime value, restricted to the shapes the lock-key code
inspects: `None`, booleans, integers, strings, string-keyed dicts and
plain objects with named attribute fields (whose default `str`/`repr`
is the `<Cls object at 0x...>` placeholder). -/
inductive Value where
  | vNone
  | vBool (b : Bool)
  | vInt (n : Int)
  | vStr (s : String)
  | vDict (entries : List (String × Value))
  | vObj (cls : String) (addr : Nat) (fields : List (String × Value))
deriving Repr

/-- The Python exceptions the module can raise while constructing a key:
`ValueError` (configuration errors and `list.index` misses), `KeyError`
(missing dict key, possibly decorated by `__attr_finder`), `TypeError`
(e.g. `len(None)`, subscripting a non-subscriptable value) and
`IndexError` (tuple index out of range). -/
inductive PyErr where
  | valueError (msg : String)
  | keyError (msg : String)
  | typeError (msg : String)
  | indexError (msg : String)
deriving Repr, DecidableEq

/-- Hexadecimal rendering of a `Nat`, as Python formats `id(obj)`. -/
def hexStr (n : Nat) : String :=
  String.mk (Nat.toDigits 16 n)

mutual

/-- Python `repr` of a `Value`.  For default objects `repr` is the
opaque `<Cls object at 0x...>` placeholder; dict entries are rendered
with `repr` on both sides as CPython does. -/
def pyRepr : Value → String
  | .vNone => "None"
  | .vBool true => "True"
  | .vBool false => "False"
  | .vInt n => toString n
  | .vStr s => "\x27" ++ s ++ "\x27"
  | .vDict entries => "\x7b" ++ dictEntriesRepr entries ++ "\x7d"
  | .vObj cls addr _ => "<" ++ cls ++ " object at 0x" ++ hexStr addr ++ ">"

/-- Comma-separated `repr` rendering of dict entries. -/
def dictEntriesRepr : List (String × Value) → String
  | [] => ""
  | [(k, v)] => "\x27" ++ k ++ "\x27: " ++ pyRepr v
  | (k, v) :: rest => "\x27" ++ k ++ "\x27: " ++ pyRepr v ++ ", " ++ dictEntriesRepr rest

end

/-- Python `str` of a `Value`: identical to `repr` except on strings,
where `str` returns the string itself. -/
def pyStr (v : Value) : String :=
  match v with
  | .vStr s => s
  | _ => pyRepr v

/-- Python truthiness (`bool(v)`). -/
def pyTruthy : Value → Bool
  | .vNone => false
  | .vBool b => b
  | .vInt n => n != 0
  | .vStr s => s != ""
  | .vDict entries => !entries.isEmpty
  | .vObj _ _ _ => true

/-- Python type name of a `Value` (used in `TypeError` messages). -/
def pyTypeName : Value → String
  | .vNone => "NoneType"
  | .vBool _ => "bool"
  | .vInt _ => "int"
  | .vStr _ => "str"
  | .vDict _ => "dict"
  | .vObj cls _ _ => cls

/-!
The opacity check of auto mode: `re.match("<.*object at.*>", s)`.
`re.match` anchors at the start of `s` only, `.` does not match a
newline, and the boolean outcome is the existence of a decomposition
`s = "<" ++ a ++ "object at" ++ b ++ ">" ++ c` with `a`, `b`
newline-free.
-/

/-- Does `.*>` match a prefix of `l`: a `>` occurs at or before the
first newline. -/
def afterObjectAt : List Char → Bool
  | [] => false
  | c :: rest =>
    if c = '>' then true
    else if c = '\n' then false
    else afterObjectAt rest

/-- The literal characters of `"object at"`. -/
def objectAtPat : List Char := ['o', 'b', 'j', 'e', 'c', 't', ' ', 'a', 't']

/-- Does `.*object at.*>` match a prefix of `l`: at some position not
past the first newline, the literal `"object at"` occurs and
`afterObjectAt` succeeds on what follows. -/
def findObjectAt : List Char → Bool
  | [] => false
  | c :: rest =>
    if (c :: rest).take 9 = objectAtPat ∧ afterObjectAt ((c :: rest).drop 9) then true
    else if c = '\n' then false
    else findObjectAt rest

/-- `re.match("<.*object at.*>", s)` as a boolean, mirroring
`default_str_regex`/`default_repr_regex` of `construct_lock_name`. -/
def opaqueMatch (s : String) : Bool :=
  match s.data with
  | '<' :: rest => findObjectAt rest
  | _ => false

/-!  `__attr_finder`: attribute/key chain resolution. -/

/-- `hasattr(obj, attr)`/`getattr(obj, attr)`: only objects expose named
fields; lookup returns the first field with the given name. -/
def getattrOpt (obj : Value) (attr : String) : Option Value :=
  match obj with
  | .vObj _ _ fields => (fields.find? (fun kv => kv.1 = attr)).map Prod.snd
  | _ => none

/-- `obj[attr]` for a string subscript: dicts look the key up and raise
`KeyError` when it is absent; every other value raises `TypeError`
(not subscriptable / bad index type). -/
def subscript (obj : Value) (attr : String) : Except PyErr Value :=
  match obj with
  | .vDict entries =>
    match (entries.find? (fun kv => kv.1 = attr)).map Prod.snd with
    | some v => .ok v
    | none => .error (.keyError ("\x27" ++ attr ++ "\x27"))
  | v => .error (.typeError ("\x27" ++ pyTypeName v ++ "\x27 object is not subscriptable"))

/-- The message `__attr_finder` attaches when the keyed lookup raises
`KeyError`: `str(e)` followed by the configuration hint naming the
accessor and `str(obj)`. -/
def attrNotFoundMsg (e : String) (attr : String) (obj : Value) : String :=
  e ++ "\nThe lock decorator is configured incorrectly. Could not find attribute/key \""
    ++ attr ++ "\" of object \"" ++ pyStr obj ++ "\""

/-- `__attr_finder(obj, attr_list)`: walk the accessor chain; at each
hop prefer a named field (`hasattr`), else subscript, decorating a
`KeyError` with the configuration hint (other exceptions propagate
raw); on the last accessor return `str` of the resolved value.
`attr_list[0]` on an empty chain raises `IndexError`. -/
def attr_finder : Value → List String → Except PyErr String
  | _, [] => .error (.indexError "list index out of range")
  | obj, attr :: rest =>
    let step : Except PyErr Value :=
      match getattrOpt obj attr with
      | some v => .ok v
      | none =>
        match subscript obj attr with
        | .ok v => .ok v
        | .error (.keyError e) => .error (.keyError (attrNotFoundMsg e attr obj))
        | .error e => .error e
    match step with
    | .error e => .error e
    | .ok attr_val =>
      if rest.isEmpty then .ok (pyStr attr_val)
      else attr_finder attr_val rest

/-!  `construct_lock_name`: the key derivation. -/

/-- One element of a `lock_name` list: a bare parameter name (Python
`str`), a `PriorityList` of parameter names, or an attribute chain
(Python `list`: parameter name followed by accessors). -/
inductive LockTerm where
  | bare (name : String)
  | priority (names : List String)
  | chain (parts : List String)
deriving Repr, DecidableEq

/-- The `lock_name` option when present: a literal string or a list of
terms. -/
inductive LockNameOpt where
  | litStr (s : String)
  | terms (l : List LockTerm)
deriving Repr, DecidableEq

/-- What `getfullargspec` supplies: `arg_spec[0]` (parameter names in
order) and `arg_spec[3]` (the defaults tuple, `None` when the function
declares no defaults), together with `func.__name__`. -/
structure FuncSig where
  name : String
  params : List String
  defaults : Option (List Value)

/-- Keyword-argument lookup (`var in kwargs` / `kwargs[var]`); kwargs
are modelled as an insertion-ordered association list with the unique
keys of a Python dict. -/
def lookupKw (kwargs : List (String × Value)) (k : String) : Option Value :=
  (kwargs.find? (fun kv => kv.1 = k)).map Prod.snd

/-- Python `list.index` as an option: index of the first occurrence. -/
def pyIndex? (l : List String) (x : String) : Option Nat :=
  match l with
  | [] => none
  | y :: rest => if y = x then some 0 else (pyIndex? rest x).map (· + 1)

/-- Python `l[-k:]`: the whole list when `k = 0` (since `-0 == 0`),
else the trailing `min k (length l)` elements. -/
def pyTailSlice (l : List String) (k : Nat) : List String :=
  if k = 0 then l else l.drop (l.length - min k l.length)

/-- `param_list[-len(defaults):].index(var)` followed by
`defaults[default_index]`, exactly as the default branch of
`construct_lock_name` computes it: `len(None)` raises `TypeError`, a
miss of `list.index` raises `ValueError`, and an out-of-range tuple
subscript raises `IndexError`. -/
def defaultLookup (param_list : List String) (defaults : Option (List Value))
    (var : String) : Except PyErr Value :=
  match defaults with
  | none => .error (.typeError "object of type \x27NoneType\x27 has no len()")
  | some ds =>
    match pyIndex? (pyTailSlice param_list ds.length) var with
    | none => .error (.valueError ("\x27" ++ var ++ "\x27 is not in list"))
    | some default_index =>
      match ds[default_index]? with
      | some v => .ok v
      | none => .error (.indexError "tuple index out of range")

/-- The `ValueError` message for a parameter missing from both the call
and the definition (bare-parameter and attribute-chain branches). -/
def paramNotFoundMsg (var : String) : String :=
  "\nThe lock decorator is configured incorrectly. Could not find parameter \""
    ++ var ++ "\" in function call or definition"

/-- Python `str` of a list of strings (`repr` of each element), as the
f-string renders a `PriorityList`. -/
def pyStrList (l : List String) : String :=
  "[" ++ String.intercalate ", " (l.map (fun s => "\x27" ++ s ++ "\x27")) ++ "]"

/-- The `ValueError` message for a parameter missing from a
`PriorityList`. -/
def prioParamNotFoundMsg (pname : String) (group : List String) : String :=
  "\nThe lock decorator is configured incorrectly. Could not find parameter \""
    ++ pname ++ "\" within PriorityList " ++ pyStrList group
    ++ " in function call or definition"

/-- The bare-parameter branch (`type(var) is str`) of
`construct_lock_name`: kwargs first, then positional, then default;
the contribution is appended with no truthiness check. -/
def evalBareTerm (param_list : List String) (defaults : Option (List Value))
    (args : List Value) (kwargs : List (String × Value))
    (lock_name : String) (var : String) : Except PyErr String :=
  match lookupKw kwargs var with
  | some v => .ok (lock_name ++ ":" ++ pyStr v)
  | none =>
    match pyIndex? param_list var with
    | some arg_index =>
      match args[arg_index]? with
      | some v => .ok (lock_name ++ ":" ++ pyStr v)
      | none =>
        match defaultLookup param_list defaults var with
        | .ok v => .ok (lock_name ++ ":" ++ pyStr v)
        | .error e => .error e
    | none => .error (.valueError (paramNotFoundMsg var))

/-- The `PriorityList` branch of `construct_lock_name`: members are
tried in order; a member found in kwargs, positionally, or by default
contributes (and stops the loop) only if its value is truthy, a falsy
value falls through to the next member, and a member missing from both
the call and the definition raises `ValueError`.  `group` is the whole
`PriorityList` (for the error message); `l` the members still to try. -/
def prioLoop (param_list : List String) (defaults : Option (List Value))
    (args : List Value) (kwargs : List (String × Value))
    (group : List String) (lock_name : String) :
    (l : List String) → Except PyErr String
  | [] => .ok lock_name
  | pname :: rest =>
    match lookupKw kwargs pname with
    | some v =>
      if pyTruthy v then .ok (lock_name ++ ":" ++ pyStr v)
      else prioLoop param_list defaults args kwargs group lock_name rest
    | none =>
      match pyIndex? param_list pname with
      | some arg_index =>
        match args[arg_index]? with
        | some v =>
          if pyTruthy v then .ok (lock_name ++ ":" ++ pyStr v)
          else prioLoop param_list defaults args kwargs group lock_name rest
        | none =>
          match defaultLookup param_list defaults pname with
          | .ok v =>
            if pyTruthy v then .ok (lock_name ++ ":" ++ pyStr v)
            else prioLoop param_list defaults args kwargs group lock_name rest
          | .error e => .error e
      | none => .error (.valueError (prioParamNotFoundMsg pname group))

/-- The attribute-chain branch (`type(var) is list`) of
`construct_lock_name`: `var[0]` is the parameter name (raising
`IndexError` on an empty list), resolved kwargs-first, and the
remaining accessors go through `__attr_finder`; no truthiness check. -/
def evalChainTerm (param_list : List String) (defaults : Option (List Value))
    (args : List Value) (kwargs : List (String × Value))
    (lock_name : String) : (parts : List String) → Except PyErr String
  | [] => .error (.indexError "list index out of range")
  | pname :: chain =>
    match lookupKw kwargs pname with
    | some v => (attr_finder v chain).map (fun s => lock_name ++ ":" ++ s)
    | none =>
      match pyIndex? param_list pname with
      | some arg_index =>
        match args[arg_index]? with
        | some v => (attr_finder v chain).map (fun s => lock_name ++ ":" ++ s)
        | none =>
          match defaultLookup param_list defaults pname with
          | .ok v => (attr_finder v chain).map (fun s => lock_name ++ ":" ++ s)
          | .error e => .error e
      | none => .error (.valueError (paramNotFoundMsg pname))

/-- The `for var in options["lock_name"]` loop: terms processed in
order, each appending to the accumulating `lock_name`, the first
exception aborting the whole construction. -/
def processTerms (param_list : List String) (defaults : Option (List Value))
    (args : List Value) (kwargs : List (String × Value)) :
    (lock_name : String) → (l : List LockTerm) → Except PyErr String
  | lock_name, [] => .ok lock_name
  | lock_name, t :: rest =>
    let step : Except PyErr String :=
      match t with
      | .bare var => evalBareTerm param_list defaults args kwargs lock_name var
      | .priority g => prioLoop param_list defaults args kwargs g lock_name g
      | .chain parts => evalChainTerm param_list defaults args kwargs lock_name parts
    match step with
    | .ok ln => processTerms param_list defaults args kwargs ln rest
    | .error e => .error e

/-- One step of the auto-mode loops: append `":" + str(arg)` when
`str(arg)` does not match the opacity regex, else `":" + repr(arg)`
when `repr(arg)` does not match it, else nothing. -/
def autoAppend (lock_name : String) (v : Value) : String :=
  if !opaqueMatch (pyStr v) then lock_name ++ ":" ++ pyStr v
  else if !opaqueMatch (pyRepr v) then lock_name ++ ":" ++ pyRepr v
  else lock_name

/-- Auto mode (`"lock_name" not in options`): fold over the positional
arguments in call order, then over the kwargs values in insertion
order. -/
def autoName (fname : String) (args : List Value)
    (kwargs : List (String × Value)) : String :=
  (kwargs.map Prod.snd).foldl autoAppend (args.foldl autoAppend fname)

/-- `construct_lock_name(func, args, kwargs, **options)`: a literal
string `lock_name` is returned unchanged; a list `lock_name` drives the
term loop seeded with `func.__name__`; an absent `lock_name` selects
auto mode. -/
def construct_lock_name (fsig : FuncSig) (args : List Value)
    (kwargs : List (String × Value)) (lock_name_opt : Option LockNameOpt) :
    Except PyErr String :=
  match lock_name_opt with
  | some (.litStr s) => .ok s
  | some (.terms tl) => processTerms fsig.params fsig.defaults args kwargs fsig.name tl
  | none => .ok (autoName fsig.name args kwargs)

/-!  `__wrapper`: the invocation guard around the wrapped function. -/

/-- The decorator options consulted by `__wrapper` and
`construct_lock_name`; each field is `none` when the caller did not
pass the corresponding key, matching `options.get(key, default)` /
`"lock_name" in options`. -/
structure Options where
  lock_name : Option LockNameOpt := none
  locked : Option Value := none
  release_on_completion : Option Value := none

/-- `options.get("locked", None)`. -/
def lockedFallback (opts : Options) : Value :=
  opts.locked.getD .vNone

/-- `options.get("release_on_completion", False) is True`: only the
`True` singleton enables release. -/
def releaseEnabled (opts : Options) : Bool :=
  match opts.release_on_completion with
  | some (.vBool true) => true
  | _ => false

/-- A handle returned by `acquire_lock`; `releaseRaises` records
whether its `release()` raises. -/
structure LockHandle where
  releaseRaises : Bool
deriving Repr, DecidableEq

/-- `lock.release()` on a handle. -/
def releaseLock (h : LockHandle) : Except PyErr Unit :=
  if h.releaseRaises then .error (.valueError "release failed") else .ok ()

/-- The observable outcome of one `__wrapper` call: the returned value
or propagated exception, how many times the wrapped function body ran,
how many times `release()` was attempted, and how many release
exceptions were caught and discarded by the bare `except`. -/
structure WrapResult where
  value : Except PyErr Value
  funcCalls : Nat
  releaseAttempts : Nat
  swallowedReleaseErrors : Nat
deriving Repr

/-- `__wrapper(*args, **kwargs)`: construct the lock name (an exception
there propagates and nothing else runs), acquire the lock (`None`
returns `options.get("locked", None)` without calling `func`),
otherwise run `func` and, in the `finally`, release only when
`release_on_completion is True`, swallowing any release exception; the
function's result or exception is returned unchanged.  The external
`acquire_lock` collaborator is abstracted as a function from lock name
to optional handle, and the wrapped function as
`f : args → kwargs → Except PyErr Value`. -/
def wrapperRun (fsig : FuncSig)
    (f : List Value → List (String × Value) → Except PyErr Value)
    (opts : Options) (acquire : String → Option LockHandle)
    (args : List Value) (kwargs : List (String × Value)) : WrapResult :=
  match construct_lock_name fsig args kwargs opts.lock_name with
  | .error e => ⟨.error e, 0, 0, 0⟩
  | .ok lock_name =>
    match acquire lock_name with
    | none => ⟨.ok (lockedFallback opts), 0, 0, 0⟩
    | some h =>
      let r := f args kwargs
      if releaseEnabled opts then
        match releaseLock h with
        | .ok _ => ⟨r, 1, 1, 0⟩
        | .error _ => ⟨r, 1, 1, 1⟩
      else ⟨r, 1, 0, 0⟩

/-!
Derived notions used to state the verified properties.  `resolveMemberVal`
captures the parameter-binding logic that `construct_lock_name` repeats in
its three term branches (the spec's ArgumentBinder): kwargs first, then
positional, then the defaults lookup, with a `ParameterNotFound`
`ValueError` when the name is absent from both the call and the
definition.
-/

/-- The bound value of a parameter name as the term branches of
`construct_lock_name` compute it. -/
def resolveMemberVal (param_list : List String) (defaults : Option (List Value))
    (args : List Value) (kwargs : List (String × Value))
    (pname : String) : Except PyErr Value :=
  match lookupKw kwargs pname with
  | some v => .ok v
  | none =>
    match pyIndex? param_list pname with
    | some arg_index =>
      match args[arg_index]? with
      | some v => .ok v
      | none => defaultLookup param_list defaults pname
    | none => .error (.valueError (paramNotFoundMsg pname))

/-- Does the parameter name resolve to a bound value (kwargs,
positional, or default)? -/
def memberResolves (param_list : List String) (defaults : Option (List Value))
    (args : List Value) (kwargs : List (String × Value))
    (pname : String) : Bool :=
  match resolveMemberVal param_list defaults args kwargs pname with
  | .ok _ => true
  | .error _ => false

/-- The bound value of the first member of a prioritized group whose
bound value is truthy, scanning left to right. -/
def firstTruthyMember (param_list : List String) (defaults : Option (List Value))
    (args : List Value) (kwargs : List (String × Value)) :
    List String → Option Value
  | [] => none
  | pname :: rest =>
    match resolveMemberVal param_list defaults args kwargs pname with
    | .ok v =>
      if pyTruthy v then some v
      else firstTruthyMember param_list defaults args kwargs rest
    | .error _ => firstTruthyMember param_list defaults args kwargs rest

/-- The segment one value contributes in auto mode: `":" + str(v)` when
`str(v)` is not opaque, else `":" + repr(v)` when `repr(v)` is not
opaque, else nothing. -/
def autoContrib (v : Value) : String :=
  if !opaqueMatch (pyStr v) then ":" ++ pyStr v
  else if !opaqueMatch (pyRepr v) then ":" ++ pyRepr v
  else ""

/-- Concatenation of a list of segments. -/
def segsConcat : List String → String
  | [] => ""
  | s :: rest => s ++ segsConcat rest

/-- The prefix shared by the `ParameterNotFound` `ValueError` messages. -/
def paramNotFoundPrefix : String :=
  "\nThe lock decorator is configured incorrectly. Could not find parameter"

/-- Is this outcome the `ParameterNotFound` configuration error: a
`ValueError` carrying the decorator's could-not-find-parameter text? -/
def isParamNotFoundErr : Except PyErr String → Bool
  | .error (.valueError m) => paramNotFoundPrefix.isPrefixOf m
  | _ => false

/-- Is this outcome an `AttributeNotFound` failure, i.e. the `KeyError`
that `__attr_finder` decorates with the failing accessor and the
containing value? -/
def isAttrNotFoundErr : Except PyErr String → Bool
  | .error (.keyError _) => true
  | _ => false

/-!  Helper lemmas. -/

theorem pyIndex?_lt_length : ∀ {l : List String} {x : String} {i : Nat},
    pyIndex? l x = some i → i < l.length := by
  intro l
  induction l with
  | nil => intro x i h; simp [pyIndex?] at h
  | cons y rest ih =>
    intro x i h
    simp only [pyIndex?] at h
    split at h
    · cases h; simp
    · cases hr : pyIndex? rest x with
      | none => rw [hr] at h; simp at h
      | some j =>
        rw [hr] at h
        simp only [Option.map_some'] at h
        cases h
        have := ih hr
        simp only [List.length_cons]
        omega

theorem pyIndex?_drop : ∀ (k : Nat) (l : List String) (x : String) (i : Nat),
    pyIndex? l x = some i → k ≤ i → pyIndex? (l.drop k) x = some (i - k) := by
  intro k
  induction k with
  | zero => intro l x i h _; simpa using h
  | succ k ih =>
    intro l x i h hk
    cases l with
    | nil => simp [pyIndex?] at h
    | cons y rest =>
      simp only [pyIndex?] at h
      split at h
      · cases h; omega
      · cases hr : pyIndex? rest x with
        | none => rw [hr] at h; simp at h
        | some j =>
          rw [hr] at h
          simp only [Option.map_some'] at h
          cases h
          have := ih rest x j hr (by omega)
          simpa [List.drop_succ_cons, Nat.succ_sub_succ] using this

/-- The bare-parameter branch is exactly the binder followed by an
unconditional `":" + str(value)` contribution. -/
theorem evalBareTerm_eq_resolve (pl : List String) (ds : Option (List Value))
    (args : List Value) (kw : List (String × Value)) (ln var : String) :
    evalBareTerm pl ds args kw ln var
      = (resolveMemberVal pl ds args kw var).map (fun v => ln ++ ":" ++ pyStr v) := by
  cases hkw : lookupKw kw var with
  | some v => simp [evalBareTerm, resolveMemberVal, hkw, Except.map]
  | none =>
    cases hidx : pyIndex? pl var with
    | none => simp [evalBareTerm, resolveMemberVal, hkw, hidx, Except.map]
    | some i =>
      cases hget : args[i]? with
      | some v => simp [evalBareTerm, resolveMemberVal, hkw, hidx, hget, Except.map]
      | none =>
        cases hdl : defaultLookup pl ds var with
        | ok v => simp [evalBareTerm, resolveMemberVal, hkw, hidx, hget, hdl, Except.map]
        | error e => simp [evalBareTerm, resolveMemberVal, hkw, hidx, hget, hdl, Except.map]

/-- When every member of a `PriorityList` resolves, the loop never
raises: it returns the accumulator extended by the segment of the first
truthy member, or unchanged when no member is truthy. -/
theorem prioLoop_resolved (pl : List String) (ds : Option (List Value))
    (args : List Value) (kw : List (String × Value)) (group : List String) :
    ∀ (l : List String) (ln : String),
      l.all (memberResolves pl ds args kw) = true →
      prioLoop pl ds args kw group ln l
        = .ok ((firstTruthyMember pl ds args kw l).elim ln
            (fun v => ln ++ ":" ++ pyStr v)) := by
  intro l
  induction l with
  | nil => intro ln _; rfl
  | cons p rest ih =>
    intro ln hall
    rw [List.all_cons, Bool.and_eq_true] at hall
    obtain ⟨hp, hrest⟩ := hall
    cases hkw : lookupKw kw p with
    | some v =>
      have hres : resolveMemberVal pl ds args kw p = .ok v := by
        simp [resolveMemberVal, hkw]
      cases ht : pyTruthy v with
      | true => simp [prioLoop, firstTruthyMember, hkw, hres, ht]
      | false => simp [prioLoop, firstTruthyMember, hkw, hres, ht, ih ln hrest]
    | none =>
      cases hidx : pyIndex? pl p with
      | some i =>
        cases hget : args[i]? with
        | some v =>
          have hres : resolveMemberVal pl ds args kw p = .ok v := by
            simp [resolveMemberVal, hkw, hidx, hget]
          cases ht : pyTruthy v with
          | true => simp [prioLoop, firstTruthyMember, hkw, hidx, hget, hres, ht]
          | false =>
            simp [prioLoop, firstTruthyMember, hkw, hidx, hget, hres, ht, ih ln hrest]
        | none =>
          cases hdl : defaultLookup pl ds p with
          | ok v =>
            have hres : resolveMemberVal pl ds args kw p = .ok v := by
              simp [resolveMemberVal, hkw, hidx, hget, hdl]
            cases ht : pyTruthy v with
            | true => simp [prioLoop, firstTruthyMember, hkw, hidx, hget, hdl, hres, ht]
            | false =>
              simp [prioLoop, firstTruthyMember, hkw, hidx, hget, hdl, hres, ht,
                ih ln hrest]
          | error e =>
            exfalso
            have hres : resolveMemberVal pl ds args kw p = .error e := by
              simp [resolveMemberVal, hkw, hidx, hget, hdl]
            rw [memberResolves, hres] at hp
            exact Bool.false_ne_true hp
      | none =>
        exfalso
        have hres : resolveMemberVal pl ds args kw p
            = .error (.valueError (paramNotFoundMsg p)) := by
          simp [resolveMemberVal, hkw, hidx]
        rw [memberResolves, hres] at hp
        exact Bool.false_ne_true hp

/-- One auto-mode step appends that value's segment. -/
theorem autoAppend_eq (ln : String) (v : Value) :
    autoAppend ln v = ln ++ autoContrib v := by
  unfold autoAppend autoContrib
  by_cases h1 : opaqueMatch (pyStr v) <;> by_cases h2 : opaqueMatch (pyRepr v) <;>
    simp [h1, h2, String.append_assoc, String.append_empty]

/-- The auto-mode fold concatenates the per-value segments. -/
theorem foldl_autoAppend : ∀ (l : List Value) (acc : String),
    l.foldl autoAppend acc = acc ++ segsConcat (l.map autoContrib) := by
  intro l
  induction l with
  | nil => intro acc; simp [segsConcat, String.append_empty]
  | cons v rest ih =>
    intro acc
    simp only [List.foldl_cons, List.map_cons, segsConcat]
    rw [autoAppend_eq, ih, String.append_assoc]

/-!  The verified claims. -/

/-- C5: when the `lock_name` option is a literal string, the
constructed lock key is exactly that string, independent of the
function's name and signature and of all positional and keyword
arguments supplied at the call. -/
theorem c5_literal_spec_total_override (fsig : FuncSig) (args : List Value)
    (kwargs : List (String × Value)) (s : String) :
    construct_lock_name fsig args kwargs (some (.litStr s)) = .ok s := rfl

/-- C10: when the `lock_name` option is an empty list of terms, the
lock key is exactly the function's name: every argument is ignored and
the auto-mode derivation is not applied (contrast the third conjunct,
where the same call with `lock_name` absent does derive a segment). -/
theorem c10_empty_terms_yield_function_name :
    (∀ (fsig : FuncSig) (args : List Value) (kwargs : List (String × Value)),
       construct_lock_name fsig args kwargs (some (.terms [])) = .ok fsig.name)
    ∧ construct_lock_name ⟨"f", [], none⟩ [.vInt 1] [] (some (.terms [])) = .ok "f"
    ∧ construct_lock_name ⟨"f", [], none⟩ [.vInt 1] [] none = .ok "f:1" :=
  ⟨fun _ _ _ => rfl, rfl, rfl⟩

/-- C3: a bare term whose parameter resolves (by keyword, position, or
default) contributes its stringified value unconditionally — there is
no truthiness hypothesis — and term processing continues with the
extended key. -/
theorem c3_bare_term_no_truthiness_gate (pl : List String)
    (ds : Option (List Value)) (args : List Value)
    (kw : List (String × Value)) (ln var : String) (v : Value)
    (rest : List LockTerm)
    (h : resolveMemberVal pl ds args kw var = .ok v) :
    processTerms pl ds args kw ln (.bare var :: rest)
      = processTerms pl ds args kw (ln ++ ":" ++ pyStr v) rest := by
  simp only [processTerms, evalBareTerm_eq_resolve, h, Except.map]

/-- C3 witness: function `f` with spec `[A, B]`, `A` bound to `""` and
`B` bound to `"b"`, yields the lock key `"f::b"` — the falsy empty
string still contributes its (empty) segment. -/
theorem c3_witness :
    resolveMemberVal ["A", "B"] none [.vStr "", .vStr "b"] [] "A" = .ok (.vStr "")
    ∧ resolveMemberVal ["A", "B"] none [.vStr "", .vStr "b"] [] "B" = .ok (.vStr "b")
    ∧ construct_lock_name ⟨"f", ["A", "B"], none⟩ [.vStr "", .vStr "b"] []
        (some (.terms [.bare "A", .bare "B"])) = .ok "f::b" := by
  refine ⟨rfl, rfl, ?_⟩
  show processTerms ["A", "B"] none [.vStr "", .vStr "b"] [] "f"
      [.bare "A", .bare "B"] = .ok "f::b"
  rw [c3_bare_term_no_truthiness_gate ["A", "B"] none [.vStr "", .vStr "b"] []
        "f" "A" (.vStr "") [.bare "B"] rfl,
      c3_bare_term_no_truthiness_gate ["A", "B"] none [.vStr "", .vStr "b"] []
        ("f" ++ ":" ++ pyStr (.vStr "")) "B" (.vStr "b") [] rfl]
  rfl

/-- C1: a prioritized term group whose members all resolve is evaluated
left to right; the first member whose bound value is truthy contributes
exactly one segment (its stringified value) and the group stops; if no
member's bound value is truthy the group contributes no segment and key
construction continues without error. -/
theorem c1_priority_group_first_truthy (pl : List String)
    (ds : Option (List Value)) (args : List Value) (kw : List (String × Value))
    (ln : String) (group : List String) (rest : List LockTerm)
    (h : group.all (memberResolves pl ds args kw) = true) :
    processTerms pl ds args kw ln (.priority group :: rest)
      = processTerms pl ds args kw
          ((firstTruthyMember pl ds args kw group).elim ln
            (fun v => ln ++ ":" ++ pyStr v)) rest := by
  simp only [processTerms]
  rw [prioLoop_resolved pl ds args kw group group ln h]

/-- C1 witness: terms `[A = "", B = "x", C = "y"]` resolve to the
segment `"x"`, not `"y"`: the lock key is `"f:x"`. -/
theorem c1_witness :
    (["A", "B", "C"].all (memberResolves ["A", "B", "C"] none []
        [("A", .vStr ""), ("B", .vStr "x"), ("C", .vStr "y")]) = true)
    ∧ processTerms ["A", "B", "C"] none []
        [("A", .vStr ""), ("B", .vStr "x"), ("C", .vStr "y")] "f"
        [.priority ["A", "B", "C"]] = .ok "f:x" := by
  refine ⟨rfl, ?_⟩
  rw [c1_priority_group_first_truthy ["A", "B", "C"] none []
        [("A", .vStr ""), ("B", .vStr "x"), ("C", .vStr "y")] "f"
        ["A", "B", "C"] [] rfl]
  rfl

/-- C8: in auto mode the lock key is the function name followed by one
segment per positional argument in call order, then per keyword value
in order, where each value contributes `":" + str(value)` unless
`str(value)` matches the opaque placeholder pattern, in which case
`":" + repr(value)` is used under the same check, and the value is
skipped entirely when both match (third conjunct: a default object is
skipped; fourth: a string that merely looks like a placeholder falls
back to its `repr`).  Second conjunct: args `(42, "abc")` on `process`
give `"process:42:abc"`. -/
theorem c8_auto_mode_concatenation :
    (∀ (fsig : FuncSig) (args : List Value) (kwargs : List (String × Value)),
       construct_lock_name fsig args kwargs none
         = .ok (fsig.name ++ segsConcat (args.map autoContrib)
             ++ segsConcat ((kwargs.map Prod.snd).map autoContrib)))
    ∧ construct_lock_name ⟨"process", [], none⟩ [.vInt 42, .vStr "abc"] [] none
        = .ok "process:42:abc"
    ∧ autoContrib (.vObj "Foo" 255 []) = ""
    ∧ autoContrib (.vStr "<X object at 0>") = ":\x27<X object at 0>\x27" := by
  refine ⟨?_, rfl, rfl, rfl⟩
  intro fsig args kwargs
  simp only [construct_lock_name, autoName, foldl_autoAppend]

/-- C2 (amended): the bare-term branch is the binder followed by an
unconditional segment (first conjunct), and the binder resolves in the
order: keyword value first — keyword always wins, even over a
positionally-bound value (second conjunct) — else the positional value
at the parameter's first index when enough positional arguments were
supplied (third conjunct), else the declared default located by the
parameter's position from the end of the parameter list mapped onto the
defaults array (fourth conjunct); a name absent from both the keyword
arguments and the parameter list fails with the `ParameterNotFound`
`ValueError` (fifth conjunct); but a name that is declared yet neither
supplied nor covered by the defaults does NOT produce
`ParameterNotFound` — with no defaults declared it raises the raw
`TypeError` from `len(None)` (sixth conjunct). -/
theorem c2_binding_order :
    (∀ (pl : List String) (ds : Option (List Value)) (args : List Value)
       (kw : List (String × Value)) (ln var : String),
       evalBareTerm pl ds args kw ln var
         = (resolveMemberVal pl ds args kw var).map (fun v => ln ++ ":" ++ pyStr v))
    ∧ (∀ (pl : List String) (ds : Option (List Value)) (args : List Value)
         (kw : List (String × Value)) (var : String) (v : Value),
         lookupKw kw var = some v →
         resolveMemberVal pl ds args kw var = .ok v)
    ∧ (∀ (pl : List String) (ds : Option (List Value)) (args : List Value)
         (kw : List (String × Value)) (var : String) (i : Nat) (v : Value),
         lookupKw kw var = none → pyIndex? pl var = some i → args[i]? = some v →
         resolveMemberVal pl ds args kw var = .ok v)
    ∧ (∀ (pl : List String) (dlist : List Value) (args : List Value)
         (kw : List (String × Value)) (var : String) (i : Nat) (v : Value),
         lookupKw kw var = none → pyIndex? pl var = some i →
         args.length ≤ i →
         dlist.length ≤ pl.length → pl.length ≤ i + dlist.length →
         dlist[dlist.length - (pl.length - i)]? = some v →
         resolveMemberVal pl (some dlist) args kw var = .ok v)
    ∧ (∀ (pl : List String) (ds : Option (List Value)) (args : List Value)
         (kw : List (String × Value)) (var : String),
         lookupKw kw var = none → pyIndex? pl var = none →
         resolveMemberVal pl ds args kw var
           = .error (.valueError (paramNotFoundMsg var)))
    ∧ (∀ (pl : List String) (args : List Value)
         (kw : List (String × Value)) (var : String) (i : Nat),
         lookupKw kw var = none → pyIndex? pl var = some i →
         args.length ≤ i →
         resolveMemberVal pl none args kw var
           = .error (.typeError "object of type \x27NoneType\x27 has no len()")) := by
  refine ⟨?_, ?_, ?_, ?_, ?_, ?_⟩
  · exact evalBareTerm_eq_resolve
  · intro pl ds args kw var v h
    simp [resolveMemberVal, h]
  · intro pl ds args kw var i v h1 h2 h3
    simp [resolveMemberVal, h1, h2, h3]
  · intro pl dlist args kw var i v hkw hidx hlen hle hsuf hdef
    have hi : i < pl.length := pyIndex?_lt_length hidx
    have hargs : args[i]? = none := List.getElem?_eq_none hlen
    have hdk : ¬dlist.length = 0 := by omega
    have hmin : min dlist.length pl.length = dlist.length := Nat.min_eq_left hle
    have hdrop : pyIndex? (pyTailSlice pl dlist.length) var
        = some (i - (pl.length - dlist.length)) := by
      rw [pyTailSlice, if_neg hdk, hmin]
      exact pyIndex?_drop (pl.length - dlist.length) pl var i hidx (by omega)
    have hidxeq : i - (pl.length - dlist.length)
        = dlist.length - (pl.length - i) := by omega
    simp [resolveMemberVal, hkw, hidx, hargs, defaultLookup, hdrop, hidxeq, hdef]
  · intro pl ds args kw var h1 h2
    simp [resolveMemberVal, h1, h2]
  · intro pl args kw var i h1 h2 h3
    have hargs : args[i]? = none := List.getElem?_eq_none h3
    simp [resolveMemberVal, h1, h2, hargs, defaultLookup]

/-- C2 witness: `f(a, b=5, c=6)` called with no arguments and the term
`"b"`: the binder maps `b` (second from the end) onto the first of the
two defaults, yielding `5` — not the absolute-index default `6`. -/
theorem c2_witness :
    lookupKw [] "b" = none
    ∧ pyIndex? ["a", "b", "c"] "b" = some 1
    ∧ resolveMemberVal ["a", "b", "c"] (some [.vInt 5, .vInt 6]) [] [] "b"
        = .ok (.vInt 5) := by
  refine ⟨rfl, rfl, ?_⟩
  exact c2_binding_order.2.2.2.1 ["a", "b", "c"] [.vInt 5, .vInt 6] [] [] "b" 1
    (.vInt 5) rfl rfl (by decide) (by decide) (by decide) rfl

/-- C2 counterexample: `f(a)` (no defaults) called with no arguments
and the term `"a"`: the claim requires a hard `ParameterNotFound`
error, but the code raises the raw `TypeError` from `len(None)` at
`param_list[-len(defaults):]`, which is not the `ParameterNotFound`
`ValueError`. -/
theorem c2_counterexample :
    construct_lock_name ⟨"f", ["a"], none⟩ [] [] (some (.terms [.bare "a"]))
      = .error (.typeError "object of type \x27NoneType\x27 has no len()")
    ∧ isParamNotFoundErr (construct_lock_name ⟨"f", ["a"], none⟩ [] []
        (some (.terms [.bare "a"]))) = false := ⟨rfl, rfl⟩

/-- C4 (amended): any key-construction error propagates to the caller
with the wrapped function never invoked (zero calls, first conjunct),
and a bare term referencing a name absent from both the keyword
arguments and the declared parameter list always fails with the
`ParameterNotFound` `ValueError` when term evaluation reaches it
(second conjunct).  A missing name inside a prioritized group after a
truthy member is never reached — see the counterexample. -/
theorem c4_construction_error_precedes_call :
    (∀ (fsig : FuncSig)
       (f : List Value → List (String × Value) → Except PyErr Value)
       (opts : Options) (acquire : String → Option LockHandle)
       (args : List Value) (kwargs : List (String × Value)) (e : PyErr),
       construct_lock_name fsig args kwargs opts.lock_name = .error e →
       wrapperRun fsig f opts acquire args kwargs = ⟨.error e, 0, 0, 0⟩)
    ∧ (∀ (pl : List String) (ds : Option (List Value)) (args : List Value)
         (kw : List (String × Value)) (ln var : String) (rest : List LockTerm),
         lookupKw kw var = none → pyIndex? pl var = none →
         processTerms pl ds args kw ln (.bare var :: rest)
           = .error (.valueError (paramNotFoundMsg var))) := by
  constructor
  · intro fsig f opts acquire args kwargs e h
    simp [wrapperRun, h]
  · intro pl ds args kw ln var rest h1 h2
    simp [processTerms, evalBareTerm, h1, h2]

/-- C4 witness: spec `["ghost"]` on a function with no parameters:
construction fails with `ParameterNotFound` and the guarded call
returns that error with the wrapped function never run. -/
theorem c4_witness :
    construct_lock_name ⟨"g", [], none⟩ [] [] (some (.terms [.bare "ghost"]))
      = .error (.valueError (paramNotFoundMsg "ghost"))
    ∧ wrapperRun ⟨"g", [], none⟩ (fun _ _ => .ok .vNone)
        ⟨some (.terms [.bare "ghost"]), none, none⟩ (fun _ => some ⟨false⟩) [] []
        = ⟨.error (.valueError (paramNotFoundMsg "ghost")), 0, 0, 0⟩ := by
  have hfail : processTerms [] none [] [] "g" [.bare "ghost"]
      = .error (.valueError (paramNotFoundMsg "ghost")) :=
    c4_construction_error_precedes_call.2 [] none [] [] "g" "ghost" [] rfl rfl
  exact ⟨hfail,
    c4_construction_error_precedes_call.1 ⟨"g", [], none⟩ (fun _ _ => .ok .vNone)
      ⟨some (.terms [.bare "ghost"]), none, none⟩ (fun _ => some ⟨false⟩) [] []
      (.valueError (paramNotFoundMsg "ghost")) hfail⟩

/-- C4 counterexample: the KeySpec `[PriorityList(["a", "ghost"])]`
references `"ghost"`, which is absent from both the keyword arguments
and the parameter list, yet with `a=1` truthy the group breaks before
reaching it: construction succeeds and the wrapped function runs once,
refuting the claim that such an invocation always raises
`ParameterNotFound` before the function body. -/
theorem c4_counterexample :
    lookupKw [("a", .vInt 1)] "ghost" = none
    ∧ pyIndex? ["a"] "ghost" = none
    ∧ wrapperRun ⟨"f", ["a"], none⟩ (fun _ _ => .ok (.vStr "ran"))
        ⟨some (.terms [.priority ["a", "ghost"]]), none, none⟩
        (fun _ => some ⟨false⟩) [] [("a", .vInt 1)]
        = ⟨.ok (.vStr "ran"), 1, 0, 0⟩ := ⟨rfl, rfl, rfl⟩

/-- C6: when acquisition returns no handle, the guard returns the
configured `locked` fallback — `options.get("locked", None)`, whose
default is `None` (second conjunct) — as a normal (non-error) value,
without invoking the wrapped function and without any release
activity. -/
theorem c6_skip_returns_locked_fallback :
    (∀ (fsig : FuncSig)
       (f : List Value → List (String × Value) → Except PyErr Value)
       (opts : Options) (acquire : String → Option LockHandle)
       (args : List Value) (kwargs : List (String × Value)) (n : String),
       construct_lock_name fsig args kwargs opts.lock_name = .ok n →
       acquire n = none →
       wrapperRun fsig f opts acquire args kwargs
         = ⟨.ok (lockedFallback opts), 0, 0, 0⟩)
    ∧ (∀ (ln : Option LockNameOpt) (r : Option Value),
        lockedFallback ⟨ln, none, r⟩ = Value.vNone) := by
  constructor
  · intro fsig f opts acquire args kwargs n h1 h2
    simp [wrapperRun, h1, h2]
  · intro ln r
    rfl

/-- C6 witness: a held lock (`acquire` returns `none`) makes the guard
return the configured `locked` value `"busy"` with zero calls of the
wrapped function. -/
theorem c6_witness :
    construct_lock_name ⟨"f", [], none⟩ [] [] (some (.litStr "k")) = .ok "k"
    ∧ wrapperRun ⟨"f", [], none⟩ (fun _ _ => .ok (.vInt 9))
        ⟨some (.litStr "k"), some (.vStr "busy"), none⟩ (fun _ => none) [] []
        = ⟨.ok (.vStr "busy"), 0, 0, 0⟩ := by
  refine ⟨rfl, ?_⟩
  exact c6_skip_returns_locked_fallback.1 ⟨"f", [], none⟩ (fun _ _ => .ok (.vInt 9))
    ⟨some (.litStr "k"), some (.vStr "busy"), none⟩ (fun _ => none) [] [] "k" rfl rfl

/-- C7: once the lock is acquired and the wrapped function runs, the
guard's value is exactly the function's result or propagated exception
— for every handle, whether or not its release raises; release is
attempted exactly when `release_on_completion is True`; and a raised
release error is swallowed (counted, never surfaced in the value). -/
theorem c7_release_best_effort (fsig : FuncSig)
    (f : List Value → List (String × Value) → Except PyErr Value)
    (opts : Options) (acquire : String → Option LockHandle)
    (args : List Value) (kwargs : List (String × Value)) (n : String)
    (hd : LockHandle)
    (h1 : construct_lock_name fsig args kwargs opts.lock_name = .ok n)
    (h2 : acquire n = some hd) :
    (wrapperRun fsig f opts acquire args kwargs).value = f args kwargs
    ∧ (wrapperRun fsig f opts acquire args kwargs).funcCalls = 1
    ∧ (wrapperRun fsig f opts acquire args kwargs).releaseAttempts
        = (if releaseEnabled opts then 1 else 0)
    ∧ (wrapperRun fsig f opts acquire args kwargs).swallowedReleaseErrors
        = (if releaseEnabled opts && hd.releaseRaises then 1 else 0) := by
  cases hrel : releaseEnabled opts with
  | false => simp [wrapperRun, h1, h2, hrel]
  | true =>
    cases hrr : hd.releaseRaises with
    | false => simp [wrapperRun, h1, h2, hrel, releaseLock, hrr]
    | true => simp [wrapperRun, h1, h2, hrel, releaseLock, hrr]

/-- C7 witness: with release enabled and a handle whose release raises,
the wrapped function's own exception is returned unchanged, the body
ran once, release was attempted once, and its error was swallowed. -/
theorem c7_witness :
    construct_lock_name ⟨"f", [], none⟩ [] [] (some (.litStr "k")) = .ok "k"
    ∧ (wrapperRun ⟨"f", [], none⟩ (fun _ _ => .error (.valueError "boom"))
        ⟨some (.litStr "k"), none, some (.vBool true)⟩
        (fun _ => some ⟨true⟩) [] []).value = .error (.valueError "boom")
    ∧ (wrapperRun ⟨"f", [], none⟩ (fun _ _ => .error (.valueError "boom"))
        ⟨some (.litStr "k"), none, some (.vBool true)⟩
        (fun _ => some ⟨true⟩) [] []).funcCalls = 1
    ∧ (wrapperRun ⟨"f", [], none⟩ (fun _ _ => .error (.valueError "boom"))
        ⟨some (.litStr "k"), none, some (.vBool true)⟩
        (fun _ => some ⟨true⟩) [] []).releaseAttempts = 1
    ∧ (wrapperRun ⟨"f", [], none⟩ (fun _ _ => .error (.valueError "boom"))
        ⟨some (.litStr "k"), none, some (.vBool true)⟩
        (fun _ => some ⟨true⟩) [] []).swallowedReleaseErrors = 1 := by
  have h := c7_release_best_effort ⟨"f", [], none⟩
    (fun _ _ => .error (.valueError "boom"))
    ⟨some (.litStr "k"), none, some (.vBool true)⟩ (fun _ => some ⟨true⟩) [] []
    "k" ⟨true⟩ rfl rfl
  exact ⟨rfl, h.1, h.2.1, h.2.2.1, h.2.2.2⟩

/-- C9 (amended): `__attr_finder` processes accessors in order,
preferring a named field (first conjunct) and falling back to a keyed
lookup (second conjunct), stringifying the value resolved by the last
accessor; a keyed lookup on a mapping that lacks the key fails with the
`KeyError` carrying the failing accessor and the `str` of the
containing value (third conjunct); but a hop whose value supports
neither named fields nor subscripting raises a bare `TypeError` without
those diagnostics (fourth conjunct) — see the counterexample.  Fifth
conjunct: `{"customer": {"id": 42}}` with chain `["customer", "id"]`
resolves to `"42"`. -/
theorem c9_chain_resolution :
    (∀ (obj : Value) (attr : String) (rest : List String) (v : Value),
       getattrOpt obj attr = some v →
       attr_finder obj (attr :: rest)
         = (if rest.isEmpty then .ok (pyStr v) else attr_finder v rest))
    ∧ (∀ (obj : Value) (attr : String) (rest : List String) (v : Value),
         getattrOpt obj attr = none → subscript obj attr = .ok v →
         attr_finder obj (attr :: rest)
           = (if rest.isEmpty then .ok (pyStr v) else attr_finder v rest))
    ∧ (∀ (entries : List (String × Value)) (attr : String) (rest : List String),
         entries.find? (fun kv => kv.1 = attr) = none →
         attr_finder (.vDict entries) (attr :: rest)
           = .error (.keyError
               (attrNotFoundMsg ("\x27" ++ attr ++ "\x27") attr (.vDict entries))))
    ∧ (∀ (obj : Value) (attr : String) (rest : List String) (m : String),
         getattrOpt obj attr = none →
         subscript obj attr = .error (.typeError m) →
         attr_finder obj (attr :: rest) = .error (.typeError m))
    ∧ attr_finder (.vDict [("customer", .vDict [("id", .vInt 42)])])
        ["customer", "id"] = .ok "42" := by
  refine ⟨?_, ?_, ?_, ?_, rfl⟩
  · intro obj attr rest v h
    simp [attr_finder, h]
  · intro obj attr rest v h1 h2
    simp [attr_finder, h1, h2]
  · intro entries attr rest h
    simp [attr_finder, getattrOpt, subscript, h]
  · intro obj attr rest m h1 h2
    simp [attr_finder, h1, h2]

/-- C9 witness: the dict `{"a": 1}` with accessor `"b"`: the failure is
the decorated `KeyError` naming the accessor `b` and the containing
value. -/
theorem c9_witness :
    ([("a", Value.vInt 1)].find? (fun kv => kv.1 = "b") = none)
    ∧ attr_finder (.vDict [("a", .vInt 1)]) ["b"]
        = .error (.keyError (attrNotFoundMsg "\x27b\x27" "b"
            (.vDict [("a", .vInt 1)]))) := by
  refine ⟨rfl, ?_⟩
  exact c9_chain_resolution.2.2.1 [("a", .vInt 1)] "b" [] rfl

/-- C9 counterexample: resolving accessor `"x"` against the value `42`
(which has no named fields and is not subscriptable) raises a bare
`TypeError` that names neither the accessor nor the containing value —
not the diagnostic `AttributeNotFound`-style `KeyError` the claim
requires for every value. -/
theorem c9_counterexample :
    attr_finder (.vInt 42) ["x"]
      = .error (.typeError "\x27int\x27 object is not subscriptable")
    ∧ isAttrNotFoundErr (attr_finder (.vInt 42) ["x"]) = false := ⟨rfl, rfl⟩

end TaskLock
